import Mathlib

/-!
Verification of the cwl-oscar OSCAR execution backend against its
natural-language specification.

Shallow embedding of the Python sources:
  * `src/cwl_oscar/oscar.py` — `OSCARServiceManager` (requirements extraction,
    service-name generation), `OSCARExecutor` (command-script synthesis,
    upload/poll/download dispatch, exit-code parsing, cleanup) and
    `OSCARTask.run` (per-step orchestration);
  * `src/cwl_oscar/cluster_manager.py` — `ClusterConfig` validation and
    `ClusterManager` round-robin scheduling;
  * `src/cwl_oscar/local_runner.py` — the completion-polling shape handling of
    `OSCARLocalRunner.submit_and_wait`.

Python strings are modelled as Lean `String`/`List Char`; Python ints as `Nat`
(with explicit `% 2 ^ 32` where the embedded MD5 needs 32-bit wrap-around);
fallible constructors return `Except`; external collaborators (the blob store,
the CWL host's output collection, the filesystem) enter as explicit oracle
parameters of the state-passing models.
-/

set_option maxRecDepth 10000

namespace CwlOscar

/-! ## Small Python-string helpers -/

/-- ASCII decimal digit test, the fragment of Python's `str.isdigit` exercised
by decimal exit-code artifacts. -/
def isAsciiDigit (c : Char) : Bool := 48 ≤ c.toNat && c.toNat ≤ 57

/-- Whitespace characters removed by Python's `str.strip()` (the ASCII ones:
space, tab, newline, carriage return, vertical tab, form feed). -/
def isPyWhitespace (c : Char) : Bool :=
  c.toNat = 32 || c.toNat = 9 || c.toNat = 10 || c.toNat = 13 || c.toNat = 11 || c.toNat = 12

/-- Python `str.strip()` on a character list: drop leading and trailing
whitespace. -/
def pyStripChars (cs : List Char) : List Char :=
  ((cs.dropWhile isPyWhitespace).reverse.dropWhile isPyWhitespace).reverse

/-- Python `str.strip()`. -/
def pyStrip (s : String) : String := String.mk (pyStripChars s.data)

/-- Python `str.isdigit` restricted to ASCII content: non-empty and all ASCII
digits. -/
def pyIsdigit (s : String) : Bool := !s.data.isEmpty && s.data.all isAsciiDigit

/-- Value of a decimal digit string (Python `int(s)` for an all-digit `s`). -/
def digitsVal (s : String) : Nat :=
  s.data.foldl (fun acc c => acc * 10 + (c.toNat - 48)) 0

/-- Truthiness of a Python `Optional[str]`: `None` and `""` are falsy. -/
def truthy : Option String → Bool
  | none => false
  | some s => !(s = "")

/-! ## MD5 (Python `hashlib.md5`, used by `generate_service_name`) -/

/-- 32-bit left rotation. -/
def rotl32 (x n : Nat) : Nat := ((x <<< n) ||| (x >>> (32 - n))) % 4294967296

/-- Per-round shift amounts of MD5. -/
def md5ShiftTable : List Nat :=
  [7, 12, 17, 22, 7, 12, 17, 22,
   7, 12, 17, 22, 7, 12, 17, 22,
   5, 9, 14, 20, 5, 9, 14, 20,
   5, 9, 14, 20, 5, 9, 14, 20,
   4, 11, 16, 23, 4, 11, 16, 23,
   4, 11, 16, 23, 4, 11, 16, 23,
   6, 10, 15, 21, 6, 10, 15, 21,
   6, 10, 15, 21, 6, 10, 15, 21]

/-- Per-round additive constants of MD5 (floor of `abs(sin(i + 1)) * 2 ^ 32`). -/
def md5SineTable : List Nat :=
  [3614090360, 3905402710, 606105819, 3250441966, 4118548399, 1200080426, 2821735955, 4249261313,
   1770035416, 2336552879, 4294925233, 2304563134, 1804603682, 4254626195, 2792965006, 1236535329,
   4129170786, 3225465664, 643717713, 3921069994, 3593408605, 38016083, 3634488961, 3889429448,
   568446438, 3275163606, 4107603335, 1163531501, 2850285829, 4243563512, 1735328473, 2368359562,
   4294588738, 2272392833, 1839030562, 4259657740, 2763975236, 1272893353, 4139469664, 3200236656,
   681279174, 3936430074, 3572445317, 76029189, 3654602809, 3873151461, 530742520, 3299628645,
   4096336452, 1126891415, 2878612391, 4237533241, 1700485571, 2399980690, 4293915773, 2240044497,
   1873313359, 4264355552, 2734768916, 1309151649, 4149444226, 3174756917, 718787259, 3951481745]

/-- UTF-8 encoding of one character (Python `str.encode()`). -/
def utf8BytesOfChar (c : Char) : List Nat :=
  let n := c.toNat
  if n < 128 then [n]
  else if n < 2048 then [192 ||| (n >>> 6), 128 ||| (n &&& 63)]
  else if n < 65536 then
    [224 ||| (n >>> 12), 128 ||| ((n >>> 6) &&& 63), 128 ||| (n &&& 63)]
  else
    [240 ||| (n >>> 18), 128 ||| ((n >>> 12) &&& 63),
     128 ||| ((n >>> 6) &&& 63), 128 ||| (n &&& 63)]

/-- UTF-8 bytes of a string (Python `str.encode()`). -/
def utf8Encode (s : String) : List Nat :=
  s.data.foldr (fun c acc => utf8BytesOfChar c ++ acc) []

/-- The 8 little-endian bytes of a 64-bit length field. -/
def le64Bytes (n : Nat) : List Nat := (List.range 8).map fun i => (n >>> (8 * i)) % 256

/-- MD5 padding: `0x80`, zeros to 56 mod 64, then the bit length, little-endian. -/
def md5Pad (msg : List Nat) : List Nat :=
  let L := msg.length
  let zeros := (120 - (L + 1) % 64) % 64
  msg ++ [128] ++ List.replicate zeros 0 ++ le64Bytes ((8 * L) % 18446744073709551616)

/-- Little-endian 32-bit word `g` of a 64-byte chunk. -/
def le32At (chunk : List Nat) (g : Nat) : Nat :=
  chunk.getD (4 * g) 0 + 256 * chunk.getD (4 * g + 1) 0 +
    65536 * chunk.getD (4 * g + 2) 0 + 16777216 * chunk.getD (4 * g + 3) 0

/-- One MD5 compression of a 64-byte chunk into the running state. -/
def md5Compress (st : Nat × Nat × Nat × Nat) (chunk : List Nat) : Nat × Nat × Nat × Nat :=
  let r := (List.range 64).foldl
    (fun (abcd : Nat × Nat × Nat × Nat) i =>
      let A := abcd.1
      let B := abcd.2.1
      let C := abcd.2.2.1
      let D := abcd.2.2.2
      let Fg : Nat × Nat :=
        if i < 16 then ((B &&& C) ||| ((B ^^^ 4294967295) &&& D), i)
        else if i < 32 then ((D &&& B) ||| ((D ^^^ 4294967295) &&& C), (5 * i + 1) % 16)
        else if i < 48 then (B ^^^ C ^^^ D, (3 * i + 5) % 16)
        else (C ^^^ (B ||| (D ^^^ 4294967295)), (7 * i) % 16)
      let Fv := (Fg.1 + A + md5SineTable.getD i 0 + le32At chunk Fg.2) % 4294967296
      (D, (B + rotl32 Fv (md5ShiftTable.getD i 0)) % 4294967296, B, C))
    st
  ((st.1 + r.1) % 4294967296, (st.2.1 + r.2.1) % 4294967296,
   (st.2.2.1 + r.2.2.1) % 4294967296, (st.2.2.2 + r.2.2.2) % 4294967296)

/-- Split a byte list into 64-byte chunks (fuel-driven structural recursion;
the fuel `bs.length` always suffices because each step consumes at least one
byte of a non-empty list). -/
def toChunks64Aux : Nat → List Nat → List (List Nat)
  | 0, _ => []
  | _, [] => []
  | fuel + 1, bs => (bs.take 64) :: toChunks64Aux fuel (bs.drop 64)

/-- Split a (padded) byte list into 64-byte chunks. -/
def toChunks64 (bs : List Nat) : List (List Nat) := toChunks64Aux bs.length bs

/-- Lowercase hexadecimal digit. -/
def hexDigitChar (n : Nat) : Char :=
  match n with
  | 0 => '0' | 1 => '1' | 2 => '2' | 3 => '3' | 4 => '4' | 5 => '5' | 6 => '6'
  | 7 => '7' | 8 => '8' | 9 => '9' | 10 => 'a' | 11 => 'b' | 12 => 'c' | 13 => 'd'
  | 14 => 'e' | _ => 'f'

/-- Two lowercase hex digits of a byte. -/
def byteToHex (b : Nat) : List Char := [hexDigitChar (b / 16 % 16), hexDigitChar (b % 16)]

/-- The four little-endian bytes of a 32-bit word. -/
def le32ToBytes (w : Nat) : List Nat := [w % 256, w / 256 % 256, w / 65536 % 256, w / 16777216 % 256]

/-- `hashlib.md5(bytes).hexdigest()`. -/
def md5Hex (msg : List Nat) : String :=
  let st := (toChunks64 (md5Pad msg)).foldl md5Compress
    (1732584193, 4023233417, 2562383102, 271733878)
  let digest := le32ToBytes st.1 ++ le32ToBytes st.2.1 ++ le32ToBytes st.2.2.1 ++
    le32ToBytes st.2.2.2
  String.mk (digest.foldr (fun b acc => byteToHex b ++ acc) [])

/-! ## JSON serialization (Python `json.dumps(..., sort_keys=True)`),
specialized to the payload hashed by `generate_service_name` -/

/-- Four lowercase hex digits. -/
def hex4 (n : Nat) : List Char :=
  [hexDigitChar (n / 4096 % 16), hexDigitChar (n / 256 % 16),
   hexDigitChar (n / 16 % 16), hexDigitChar (n % 16)]

/-- Escape of one character in a Python `json.dumps` string literal
(`ensure_ascii=True`, the default). -/
def jsonEscapeChar (c : Char) : List Char :=
  if c = '"' then ['\\', '"']
  else if c = '\\' then ['\\', '\\']
  else if c = '\n' then ['\\', 'n']
  else if c = '\t' then ['\\', 't']
  else if c = '\r' then ['\\', 'r']
  else if c.toNat = 8 then ['\\', 'b']
  else if c.toNat = 12 then ['\\', 'f']
  else if c.toNat < 32 then '\\' :: 'u' :: hex4 c.toNat
  else if c.toNat ≤ 126 then [c]
  else if c.toNat ≤ 65535 then '\\' :: 'u' :: hex4 c.toNat
  else
    let code := c.toNat - 65536
    ('\\' :: 'u' :: hex4 (55296 + code / 1024)) ++ ('\\' :: 'u' :: hex4 (56320 + code % 1024))

/-- A JSON string literal as emitted by `json.dumps`. -/
def jsonStr (s : String) : String :=
  String.mk ('"' :: s.data.foldr (fun c acc => jsonEscapeChar c ++ acc) ['"'])

/-- `json.dumps` of an optional string (`None` serializes as `null`). -/
def jsonOptStr : Option String → String
  | none => "null"
  | some s => jsonStr s

/-- Insert a key into an association list sorted by key (string comparison by
code points, as Python compares `str`). -/
def insertSortedByKey (p : String × String) :
    List (String × String) → List (String × String)
  | [] => [p]
  | q :: rest => if p.1 < q.1 then p :: q :: rest else q :: insertSortedByKey p rest

/-- Sort an association list by key, as `json.dumps(..., sort_keys=True)` does
before serializing an object. -/
def sortByKey (l : List (String × String)) : List (String × String) :=
  l.foldr insertSortedByKey []

/-! ## `OSCARServiceManager` (oscar.py): tool specifications, requirements
extraction and service-name generation -/

/-- CWL `baseCommand`: a string or a list of strings. -/
inductive BaseCommand where
  | str (s : String)
  | list (xs : List String)
deriving DecidableEq, Repr

/-- A CWL `envDef`: the dictionary form, or the legacy list of
`envName`/`envValue` records (both accepted by `extract_service_requirements`). -/
inductive EnvDef where
  | dict (kvs : List (String × String))
  | legacy (kvs : List (String × String))
deriving DecidableEq, Repr

/-- The name/value pairs carried by an `envDef`, in source order. -/
def EnvDef.pairs : EnvDef → List (String × String)
  | .dict kvs => kvs
  | .legacy kvs => kvs

/-- One entry of a `requirements` or `hints` list: the fields read by
`extract_service_requirements` (a Python dict; absent keys are `none`). -/
structure ReqEntry where
  klass : Option String
  dockerPull : Option String := none
  ramMin : Option Int := none
  coresMin : Option Int := none
  envDef : Option EnvDef := none
deriving DecidableEq, Repr

/-- The fields of a CommandLineTool specification read by the Service Manager
(an opaque mapping in the source; `none` models an absent key). -/
structure ToolSpec where
  baseCommand : Option BaseCommand := none
  klass : Option String := none
  requirements : Option (List ReqEntry) := none
  hints : Option (List ReqEntry) := none
deriving DecidableEq, Repr

/-- The normalized service requirements produced by
`extract_service_requirements` (a Python dict with keys `memory`, `cpu`,
`image`, `environment`; `environment` is insertion-ordered). -/
structure ServiceRequirements where
  memory : String
  cpu : String
  image : String
  environment : List (String × String)
deriving DecidableEq, Repr

/-- The defaults set at the top of `extract_service_requirements`. -/
def defaultServiceRequirements : ServiceRequirements :=
  ⟨"1Gi", "1.0", "opensourcefoundries/minideb:jessie", []⟩

/-- Python dict assignment `d[k] = v`: replace in place if the key exists,
otherwise append. -/
def dictSet (d : List (String × String)) (k v : String) : List (String × String) :=
  if d.any fun kv => kv.1 = k then d.map fun kv => if kv.1 = k then (k, v) else kv
  else d ++ [(k, v)]

/-- Python `dict.update`: assign every pair of `src`, in order. -/
def dictUpdate (d src : List (String × String)) : List (String × String) :=
  src.foldl (fun acc kv => dictSet acc kv.1 kv.2) d

/-- One iteration of the `requirements` loop of `extract_service_requirements`. -/
def processRequirement (acc : ServiceRequirements) (req : ReqEntry) : ServiceRequirements :=
  if req.klass = some "DockerRequirement" then
    match req.dockerPull with
    | some img => { acc with image := img }
    | none => acc
  else if req.klass = some "ResourceRequirement" then
    let acc1 := match req.ramMin with
      | some r => { acc with memory := toString r ++ "Mi" }
      | none => acc
    match req.coresMin with
    | some c => { acc1 with cpu := toString c }
    | none => acc1
  else if req.klass = some "EnvVarRequirement" then
    match req.envDef with
    | some ed => { acc with environment := dictUpdate acc.environment ed.pairs }
    | none => acc
  else acc

/-- One iteration of the `hints` loop of `extract_service_requirements`: only
`DockerRequirement`/`dockerPull` is honored, and it overwrites the image
unconditionally. -/
def processHint (acc : ServiceRequirements) (hint : ReqEntry) : ServiceRequirements :=
  if hint.klass = some "DockerRequirement" then
    match hint.dockerPull with
    | some img => { acc with image := img }
    | none => acc
  else acc

/-- State of an `OSCARServiceManager` instance: the constructor arguments.
The client handle and the service cache are not read by the identity
computation and are omitted. -/
structure OSCARServiceManager where
  oscar_endpoint : String
  oscar_token : Option String
  oscar_username : Option String
  oscar_password : Option String
  mount_path : String
  ssl : Bool
deriving DecidableEq, Repr

/-- `OSCARServiceManager.extract_service_requirements`: defaults, then the
`requirements` list in order, then the `hints` list in order. The manager
argument mirrors the Python `self`, which the method never reads. -/
def extract_service_requirements (_mgr : OSCARServiceManager) (ts : ToolSpec) :
    ServiceRequirements :=
  let base := defaultServiceRequirements
  let afterReqs := match ts.requirements with
    | some l => l.foldl processRequirement base
    | none => base
  match ts.hints with
  | some l => l.foldl processHint afterReqs
  | none => afterReqs

/-- `json.dumps` of a `baseCommand` value. -/
def baseCommandJson : Option BaseCommand → String
  | none => "null"
  | some (.str s) => jsonStr s
  | some (.list xs) => "[" ++ String.intercalate ", " (xs.map jsonStr) ++ "]"

/-- `json.dumps(..., sort_keys=True)` of the `environment` dict. -/
def environmentJson (env : List (String × String)) : String :=
  "\x7b" ++
    String.intercalate ", "
      ((sortByKey env).map fun kv => jsonStr kv.1 ++ ": " ++ jsonStr kv.2) ++
  "\x7d"

/-- `json.dumps(..., sort_keys=True)` of the requirements dict: its keys in
sorted order are `cpu`, `environment`, `image`, `memory`. -/
def requirementsJson (r : ServiceRequirements) : String :=
  "\x7b\"cpu\": " ++ jsonStr r.cpu ++
    ", \"environment\": " ++ environmentJson r.environment ++
    ", \"image\": " ++ jsonStr r.image ++
    ", \"memory\": " ++ jsonStr r.memory ++ "\x7d"

/-- The `tool_content` string hashed by `generate_service_name`:
`json.dumps` of the dict with keys `baseCommand`, `class`, `requirements`
(already in sorted order). -/
def toolContentJson (ts : ToolSpec) (reqs : ServiceRequirements) : String :=
  "\x7b\"baseCommand\": " ++ baseCommandJson ts.baseCommand ++
    ", \"class\": " ++ jsonOptStr ts.klass ++
    ", \"requirements\": " ++ requirementsJson reqs ++ "\x7d"

/-- The sanitization of the tool id in `generate_service_name`: lowercase,
underscores to hyphens, keep only `[a-z0-9-]`, strip leading/trailing hyphens,
fall back to `"tool"` when empty. -/
def sanitizeToolId (s : String) : String :=
  let cs := s.data.map fun c => if Char.toLower c = '_' then '-' else Char.toLower c
  let cs := cs.filter fun c => ('a' ≤ c && c ≤ 'z') || ('0' ≤ c && c ≤ '9') || c = '-'
  let cs := ((cs.dropWhile fun c => c = '-').reverse.dropWhile fun c => c = '-').reverse
  if cs.isEmpty then "tool" else String.mk cs

/-- `OSCARServiceManager.generate_service_name`: the tool id is the job name
when truthy (else `"tool"`); the hash is the first 8 hex characters of the MD5
of the canonical JSON payload; the result is `clt-<sanitized>-<hash8>`. -/
def generate_service_name (ts : ToolSpec) (reqs : ServiceRequirements)
    (job_name : Option String) : String :=
  let tool_id := if truthy job_name then job_name.getD "tool" else "tool"
  let tool_content := toolContentJson ts reqs
  let service_hash := (md5Hex (utf8Encode tool_content)).take 8
  "clt-" ++ sanitizeToolId tool_id ++ "-" ++ service_hash

/-- The Service Manager's identity computation: requirements extraction
followed by name generation, as performed at the top of
`get_or_create_service`. -/
def serviceIdentity (mgr : OSCARServiceManager) (ts : ToolSpec)
    (job_name : Option String) : String :=
  generate_service_name ts (extract_service_requirements mgr ts) job_name

/-- Concrete manager instance used by concrete evaluations. -/
def mgrA : OSCARServiceManager :=
  ⟨"https://cluster1.example.org", some "token-a", none, none, "/mnt/cwl2o-data/mount", true⟩

/-- A second concrete manager, differing from `mgrA` in every field. -/
def mgrB : OSCARServiceManager :=
  ⟨"https://cluster2.example.org", none, some "user", some "pw", "/mnt/other/mount", false⟩

/-- The echo tool of the spec's end-to-end scenario 1. -/
def tsEcho : ToolSpec :=
  { baseCommand := some (.list ["echo", "hi"]), klass := some "CommandLineTool" }

/-! ## `ClusterConfig` and `ClusterManager` (cluster_manager.py) -/

/-- A validated cluster configuration (the dataclass after `__post_init__`;
`name` is always set afterwards, so it is a plain `String` here). -/
structure ClusterConfig where
  endpoint : String
  token : Option String
  username : Option String
  password : Option String
  ssl : Bool
  name : String
deriving DecidableEq, Repr

/-- The name derived when none is provided:
`"cluster-" + endpoint.split('://')[-1].split('/')[0]`. -/
def deriveClusterName (endpoint : String) : String :=
  "cluster-" ++ (((endpoint.splitOn "://").getLastD "").splitOn "/").headD ""

/-- `ClusterConfig.__post_init__`: the validation performed when a cluster
descriptor is constructed. Returns the raised `ValueError` message on failure. -/
def mkClusterConfig (endpoint : String) (token username password : Option String)
    (ssl : Bool) (name : Option String) : Except String ClusterConfig :=
  if endpoint = "" then .error "Cluster endpoint is required"
  else if !truthy token && !(truthy username && truthy password) then
    .error "Either token or username/password must be provided"
  else if truthy username && !truthy password then
    .error "Password is required when username is provided"
  else
    .ok ⟨endpoint, token, username, password, ssl,
      if truthy name then name.getD "" else deriveClusterName endpoint⟩

/-- Whether construction of a cluster descriptor passes validation. -/
def clusterConfigOk (endpoint : String) (token username password : Option String)
    (ssl : Bool) (name : Option String) : Bool :=
  match mkClusterConfig endpoint token username password ssl name with
  | .ok _ => true
  | .error _ => false

/-- State of a `ClusterManager`: the registered clusters and the rotation
cursor. The mutex and the client cache carry no registry state. -/
structure ClusterManager where
  clusters : List ClusterConfig
  current_cluster_index : Nat
deriving DecidableEq, Repr

/-- `ClusterManager.get_next_cluster`: `none` on an empty registry, otherwise
the cluster at the cursor, advancing the cursor to `(index + 1) % N`.
(When the cursor is out of range on a non-empty registry Python would raise
`IndexError`; that state is unreachable — the maintained invariant keeps the
cursor in `[0, N)` — and this embedding returns `none` there.) -/
def get_next_cluster (m : ClusterManager) : Option ClusterConfig × ClusterManager :=
  match m.clusters.get? m.current_cluster_index with
  | none => (none, m)
  | some c =>
    (some c,
     { m with current_cluster_index := (m.current_cluster_index + 1) % m.clusters.length })

/-- `k` successive `get_next_cluster` calls: the returned clusters in order,
and the final manager state. -/
def nextClusters : ClusterManager → Nat → List (Option ClusterConfig) × ClusterManager
  | m, 0 => ([], m)
  | m, k + 1 =>
    let step := get_next_cluster m
    let rest := nextClusters step.2 k
    (step.1 :: rest.1, rest.2)

/-! ## Blob-store listing shapes (oscar.py `upload_and_wait_for_output`,
local_runner.py `submit_and_wait`) -/

/-- Suffix test on character lists (Python `str.endswith`), kept list-based so
concrete instances evaluate in the kernel. -/
def strEndsWith (s suff : String) : Bool := suff.data.isSuffixOf s.data

/-- One entry of an S3-style listing: a dict with `Key` and `Size`. -/
structure S3Entry where
  key : String
  size : Nat
deriving DecidableEq, Repr

/-- A blob-store listing response: either the S3-style dict with a `Contents`
key, or a flat list of keys. -/
inductive Listing where
  | s3 (contents : List S3Entry)
  | flat (keys : List String)
deriving DecidableEq, Repr

/-- One poll iteration of the dispatcher (`upload_and_wait_for_output`): the
guard is `'Contents' in files`. On a flat list that is a membership test, so
the `Contents` branch is never entered (and a literal `"Contents"` element
would raise on indexing, swallowed by the `except`): no entry is ever
recognized in a flat response. -/
def dispatcherFindOutput (expectedOutputPath expectedOutputName : String)
    (files : Listing) : Option S3Entry :=
  match files with
  | .s3 contents =>
    contents.find? fun e => e.key = expectedOutputPath || strEndsWith e.key expectedOutputName
  | .flat _ => none

/-- One poll iteration of the local runner (`submit_and_wait`): both response
shapes are inspected, matching by suffix on `<script-name>.exit_code`. -/
def localRunnerFindCompletion (expectedOutput : String) (files : Listing) : Option String :=
  match files with
  | .s3 contents => (contents.find? fun e => strEndsWith e.key expectedOutput).map S3Entry.key
  | .flat keys => keys.find? fun k => strEndsWith k expectedOutput

/-! ## Command-script environment quoting (oscar.py `create_command_script`) -/

/-- Python `value.replace('"', '\\"')` — a single-character pattern, hence a
per-character expansion. -/
def escQuoteChars : List Char → List Char
  | [] => []
  | c :: rest => (if c = '"' then ['\\', '"'] else [c]) ++ escQuoteChars rest

/-- Python `value.replace('$', '\\$')`. -/
def escDollarChars : List Char → List Char
  | [] => []
  | c :: rest => (if c = '$' then ['\\', '$'] else [c]) ++ escDollarChars rest

/-- The escaping applied to environment-variable values in
`create_command_script`: `"` then `$`, in that order. -/
def escapeEnvValue (s : String) : String := String.mk (escDollarChars (escQuoteChars s.data))

/-- The emitted export line: `export KEY="<escaped>"`. -/
def exportLine (key value : String) : String :=
  "export " ++ key ++ "=\"" ++ escapeEnvValue value ++ "\"\n"

/-- Bash semantics of the body of a double-quoted string: backslash escapes
`$`, backquote, `"` and backslash (and removes an escaped newline); any bare
`$`, backquote or `"` makes the runtime value depend on the environment or
break the quoting, modelled as `none`; every other character is literal. -/
def dquoteEval : List Char → Option (List Char)
  | [] => some []
  | c :: rest =>
    if c = '\\' then
      match rest with
      | [] => none
      | c2 :: rest2 =>
        if c2 = '$' || c2 = '`' || c2 = '"' || c2 = '\\' then (dquoteEval rest2).map (c2 :: ·)
        else if c2 = '\n' then dquoteEval rest2
        else (dquoteEval rest2).map fun t => '\\' :: c2 :: t
    else if c = '$' || c = '`' || c = '"' then none
    else (dquoteEval rest).map (c :: ·)

/-- A string is shell-safe for this quoting scheme when it contains no
backslash and no backquote. -/
def shellSafe (s : String) : Prop := '\\' ∉ s.data ∧ '`' ∉ s.data

instance (s : String) : Decidable (shellSafe s) := by
  unfold shellSafe; infer_instance

/-! ## Exit-code parsing and the dispatch state machine
(oscar.py `execute_command`) -/

/-- The exit-code interpretation of `execute_command`: strip, then the integer
when the content is all digits, else a logged warning and `0`. -/
def readExitCode (content : String) : Nat :=
  let output_content := pyStrip content
  if pyIsdigit output_content then digitsVal output_content else 0

/-- Which on-disk artifacts of one dispatch still exist. -/
structure DispatchFS where
  tempDirExists : Bool
  scriptExists : Bool
  downloadedExists : Bool
deriving DecidableEq, Repr

/-- The `finally` cleanup of `execute_command`: the temp-directory path is
recomputed as `os.path.dirname(script_path)`, so nothing is removed when the
script was never created; otherwise the script, the downloaded artifact and
the whole temp directory are removed (`shutil.rmtree`). -/
def dispatchCleanup (scriptCreated : Bool) (fs : DispatchFS) : DispatchFS :=
  if scriptCreated then ⟨false, false, false⟩ else fs

/-- `OSCARExecutor.execute_command` after service resolution, as a state
machine over the dispatch artifacts. Oracle parameters model the external
world: `createScriptOk` (script synthesis I/O), `uploadFound` (upload plus the
poll loop finding the exit-code artifact before the deadline), `downloadOk`
(artifact download and local placement), and `readResult` (`some content` for
a successful local read, `none` when `open`/`read` raises `IOError` or the
parse raises `ValueError`). Returns the exit code handed to the caller and
the on-disk state after the `finally` block. -/
def execute_command (createScriptOk uploadFound downloadOk : Bool)
    (readResult : Option String) : Nat × DispatchFS :=
  let fs0 : DispatchFS := ⟨true, false, false⟩
  if !createScriptOk then
    (1, dispatchCleanup false fs0)
  else
    let fs1 : DispatchFS := ⟨true, true, false⟩
    if !uploadFound then (1, dispatchCleanup true fs1)
    else if !downloadOk then (1, dispatchCleanup true fs1)
    else
      let fs2 : DispatchFS := ⟨true, true, true⟩
      match readResult with
      | none => (0, dispatchCleanup true fs2)
      | some content => (readExitCode content, dispatchCleanup true fs2)

/-! ## `OSCARTask.run` (oscar.py): per-step orchestration -/

/-- What `OSCARTask.run` hands to the host's completion callback. -/
structure RunOutcome where
  status : String
  outputs : List (String × String)
deriving DecidableEq, Repr

/-- `OSCARTask.run` as a function of its oracles: `preFailure` models any
exception before or during the dispatch (no cluster available, service
creation exhausted its retries, ...); `exit_code` is the dispatcher's return
value; `outputDirExists` is the `os.path.exists` probe of
`<mount>/<job_id>`; `collectResult` is the host's `collect_outputs`
(`none` models a raised exception). The result is the `(outputs, status)`
pair passed to `output_callback` under the workflow evaluation lock. -/
def OSCARTask_run (preFailure : Bool) (exit_code : Nat) (outputDirExists : Bool)
    (collectResult : Option (List (String × String))) : RunOutcome :=
  if preFailure then ⟨"permanentFail", []⟩
  else
    let status := if exit_code = 0 then "success" else "permanentFail"
    if outputDirExists then
      match collectResult with
      | some outs => ⟨status, outs⟩
      | none => ⟨"permanentFail", []⟩
    else ⟨"permanentFail", []⟩

/-! ## Remaining definitions: decimal rendering, override-spec functions and
concrete fixtures -/

/-- Decimal rendering of a natural number (the shape of the content that the
remote launcher's `echo "$exit_code"` writes into the exit-code artifact). -/
def natToChars (n : Nat) : List Char :=
  if n < 10 then [hexDigitChar n] else natToChars (n / 10) ++ [hexDigitChar (n % 10)]
termination_by n
decreasing_by exact Nat.div_lt_self (by omega) (by omega)

/-- Decimal rendering as a string. -/
def natToString (n : Nat) : String := String.mk (natToChars n)

/-- Keep the first option when present, else fall back. -/
def oKeep (o fallback : Option α) : Option α :=
  match o with
  | some v => some v
  | none => fallback

/-- Last-write-wins accumulation of an optional attribute over a list of
requirement entries (specification-side description of the extraction loops). -/
def gStep (g : ReqEntry → Option α) (acc : Option α) (e : ReqEntry) : Option α :=
  oKeep (g e) acc

/-- The last value an entry list assigns to an attribute, if any. -/
def lastG (g : ReqEntry → Option α) (l : List ReqEntry) : Option α :=
  l.foldl (gStep g) none

/-- The Docker image contributed by one entry (requirements and hints loops
alike read `dockerPull` of `DockerRequirement` entries). -/
def gDocker (e : ReqEntry) : Option String :=
  if e.klass = some "DockerRequirement" then e.dockerPull else none

/-- The memory string contributed by one requirements entry. -/
def gRam (e : ReqEntry) : Option String :=
  if e.klass = some "ResourceRequirement" then e.ramMin.map (fun r => toString r ++ "Mi")
  else none

/-- The cpu string contributed by one requirements entry. -/
def gCores (e : ReqEntry) : Option String :=
  if e.klass = some "ResourceRequirement" then e.coresMin.map toString else none

/-- A tool whose `requirements` list sets the Docker image. -/
def tsC4req : ToolSpec :=
  { klass := some "CommandLineTool",
    requirements := some [⟨some "DockerRequirement", some "img-from-requirements", none, none, none⟩] }

/-- The same tool with a `hints` entry that also names an image. -/
def tsC4 : ToolSpec :=
  { tsC4req with
    hints := some [⟨some "DockerRequirement", some "img-from-hints", none, none, none⟩] }

/-- Concrete cluster descriptors for round-robin evaluation. -/
def ccA : ClusterConfig :=
  ⟨"https://c1.example.org", some "t1", none, none, true, "cluster-c1.example.org"⟩

/-- Second concrete cluster descriptor. -/
def ccB : ClusterConfig :=
  ⟨"https://c2.example.org", some "t2", none, none, true, "cluster-c2.example.org"⟩

/-- Third concrete cluster descriptor. -/
def ccC : ClusterConfig :=
  ⟨"https://c3.example.org", none, some "u", some "p", false, "cluster-c3.example.org"⟩

/-- A registry of three clusters with the cursor at 1. -/
def cmABC : ClusterManager := ⟨[ccA, ccB, ccC], 1⟩

/-- The expected artifact name of a concrete job script. -/
def exitArtifactName : String := "cwl_command_job1.sh.exit_code"

/-- The expected artifact path inside the service's output bucket. -/
def exitArtifactPath : String := "clt-tool-f183f436/out/cwl_command_job1.sh.exit_code"

/-- A concrete environment-variable value containing quotes and dollars. -/
def envValC7 : String := "a \"quoted\" $HOME value"

/-! ## Sanity theorems: the embedding computes the same values as CPython -/

/-- MD5 test vector: the empty message. -/
theorem md5Hex_empty : md5Hex (utf8Encode "") = "d41d8cd98f00b204e9800998ecf8427e" := by decide

/-- MD5 test vector: `"abc"`. -/
theorem md5Hex_abc : md5Hex (utf8Encode "abc") = "900150983cd24fb0d6963f7d28e17f72" := by decide

/-- The canonical JSON of the echo tool matches CPython's
`json.dumps(..., sort_keys=True)` output byte for byte. -/
theorem toolContentJson_echo :
    toolContentJson tsEcho (extract_service_requirements mgrA tsEcho) =
      "\x7b\"baseCommand\": [\"echo\", \"hi\"], \"class\": \"CommandLineTool\", \"requirements\": \x7b\"cpu\": \"1.0\", \"environment\": \x7b\x7d, \"image\": \"opensourcefoundries/minideb:jessie\", \"memory\": \"1Gi\"\x7d\x7d" := by
  decide

/-- The generated service name for the echo tool matches the value computed by
CPython (`hashlib.md5` of the canonical JSON, first 8 hex chars). -/
theorem generate_service_name_echo :
    serviceIdentity mgrA tsEcho (some "step_one") = "clt-step-one-f183f436" := by decide

/-! ## C2 — service identity is deterministic and manager-independent -/

/-- C2: the Service Manager's identity computation (requirements extraction
followed by name generation) is a pure function of the tool spec and the job
name alone: any two manager instances — differing in cluster endpoint,
credentials, mount path, TLS flag — produce the same identity string, and
since the computation is a Lean function, any two invocations at the same
arguments return the same string. No time parameter enters the computation. -/
theorem serviceIdentity_manager_independent (m₁ m₂ : OSCARServiceManager)
    (ts : ToolSpec) (job_name : Option String) :
    serviceIdentity m₁ ts job_name = serviceIdentity m₂ ts job_name := rfl

/-! ## C9 — cluster-descriptor validation -/

/-- C9 counterexample: a descriptor carrying BOTH credential forms (a bearer
token and a username/password pair) passes validation, so "exactly one
credential form must be present for a descriptor to be valid" is false of
`ClusterConfig.__post_init__`. -/
theorem clusterConfig_both_forms_valid :
    clusterConfigOk "https://example.org" (some "tok") (some "user") (some "pw") true none = true
    ∧ truthy (some "tok") = true
    ∧ (truthy (some "user") && truthy (some "pw")) = true := by decide

/-- C9 amended: construction fails validation exactly when the endpoint is
missing, both credential forms are absent, or a username is given without a
password; at least one credential form must be present, and both may be
present simultaneously. -/
theorem clusterConfig_validation (e : String) (t u p : Option String)
    (ssl : Bool) (nm : Option String) :
    clusterConfigOk e t u p ssl nm =
      (!(e = "") && (truthy t || (truthy u && truthy p)) && (!(truthy u) || truthy p)) := by
  unfold clusterConfigOk mkClusterConfig
  by_cases he : e = "" <;>
    cases ht : truthy t <;> cases hu : truthy u <;> cases hp : truthy p <;>
      simp [he, ht, hu, hp]

/-! ## C1 — outputs passed to the completion callback on `permanentFail` -/

/-- C1 counterexample: a non-zero exit code with an existing output directory
and a successful collection reports `permanentFail` while passing the
non-empty collected outputs to the callback — the claim that every
`permanentFail` carries an empty outputs dict is false of `OSCARTask.run`. -/
theorem permanentFail_with_nonempty_outputs :
    (OSCARTask_run false 1 true (some [("outfile", "/mnt/cwl2o-data/mount/j1/x.txt")])).status
        = "permanentFail"
    ∧ (OSCARTask_run false 1 true (some [("outfile", "/mnt/cwl2o-data/mount/j1/x.txt")])).outputs
        ≠ [] := by decide

/-- C1 amended: a `permanentFail` arising from a pre-dispatch exception, a
missing output directory, or an output-collection error is reported with an
empty outputs dict; when the exit code is non-zero but the output directory
exists and collection succeeds, the step still reports `permanentFail` (for
`exit_code ≠ 0`) yet passes the collected — possibly non-empty — outputs to
the callback. -/
theorem OSCARTask_run_outputs (pre : Bool) (ec : Nat) (dir : Bool)
    (coll : Option (List (String × String))) :
    (pre = true ∨ dir = false ∨ coll = none →
      OSCARTask_run pre ec dir coll = ⟨"permanentFail", []⟩)
    ∧ (∀ outs, pre = false → dir = true → coll = some outs →
        (OSCARTask_run pre ec dir coll).outputs = outs
        ∧ (OSCARTask_run pre ec dir coll).status =
            (if ec = 0 then "success" else "permanentFail")) := by
  constructor
  · intro h
    cases pre <;> cases dir <;> cases coll <;> simp [OSCARTask_run] <;> simp at h
  · rintro outs rfl rfl rfl
    by_cases hec : ec = 0 <;> simp [OSCARTask_run, hec]

/-- C1 amended, witness: concrete instantiations of both halves. -/
theorem OSCARTask_run_outputs_witness :
    OSCARTask_run false 7 false none = ⟨"permanentFail", []⟩
    ∧ (OSCARTask_run false 0 true (some [("o", "v")])).outputs = [("o", "v")] := by
  refine ⟨(OSCARTask_run_outputs false 7 false none).1 (Or.inr (Or.inl rfl)), ?_⟩
  exact ((OSCARTask_run_outputs false 0 true (some [("o", "v")])).2 [("o", "v")] rfl rfl rfl).1

/-! ## C10 — local read errors after a successful download yield exit code 0 -/

/-- C10: when the exit-code artifact is found and downloaded but the local
open/read raises (`IOError`/`ValueError`), `execute_command` returns `0`
(reported upstream as step success), whereas an upload failure or poll
timeout, and a download failure, each return the dispatcher failure code `1`. -/
theorem execute_command_read_error_returns_zero :
    (execute_command true true true none).1 = 0
    ∧ (∀ d r, (execute_command true false d r).1 = 1)
    ∧ (∀ r, (execute_command true true false r).1 = 1) := by
  refine ⟨rfl, fun d r => rfl, fun r => rfl⟩

/-! ## C8 — temp-directory hygiene -/

/-- C8: when script synthesis itself raises after `tempfile.mkdtemp`
succeeded, the `finally` block recomputes the temp directory as
`os.path.dirname(script_path)` with `script_path = None`, so nothing is
removed: `execute_command` returns failure code 1 but the temporary
directory is still on disk, contradicting "absent on every failure path".
On every path where the script was created the directory is removed. -/
theorem execute_command_leaks_tempdir_on_script_failure :
    execute_command false true true (some "0") = (1, ⟨true, false, false⟩)
    ∧ (∀ u d r, (execute_command true u d r).2.tempDirExists = false) := by
  refine ⟨by decide, fun u d r => ?_⟩
  cases u <;> cases d <;> cases r <;> rfl

/-! ## C6 — listing response shapes (counterexample half) -/

/-- C6 counterexample: a flat-list response whose sole element is exactly the
expected artifact key is never recognized by the dispatcher's poll loop
(`upload_and_wait_for_output` only enters its match loop under
`'Contents' in files`), while the local runner's poll loop recognizes the
same response; the dispatcher does recognize the S3-dict shape. -/
theorem dispatcher_rejects_flat_listing :
    dispatcherFindOutput exitArtifactPath exitArtifactName (.flat [exitArtifactPath]) = none
    ∧ localRunnerFindCompletion exitArtifactName (.flat [exitArtifactPath])
        = some exitArtifactPath
    ∧ dispatcherFindOutput exitArtifactPath exitArtifactName (.s3 [⟨exitArtifactPath, 2⟩])
        = some ⟨exitArtifactPath, 2⟩ := by decide

/-- C6 amended: only the local runner's poll loop accepts both listing
shapes. The dispatcher's poll loop recognizes the completion artifact only in
the S3-style dict-with-`Contents` shape (matching by key equality with the
expected path or by suffix `<script-basename>.exit_code`); in a flat-list
response it recognizes nothing, so polling continues until the deadline. The
local runner recognizes the artifact in either shape by suffix match. -/
theorem listing_shape_handling (p n : String) :
    (∀ keys, dispatcherFindOutput p n (.flat keys) = none)
    ∧ (∀ contents (e : S3Entry), e ∈ contents →
        (e.key = p ∨ strEndsWith e.key n = true) →
        (dispatcherFindOutput p n (.s3 contents)).isSome = true)
    ∧ (∀ keys (k : String), k ∈ keys → strEndsWith k n = true →
        (localRunnerFindCompletion n (.flat keys)).isSome = true)
    ∧ (∀ contents (e : S3Entry), e ∈ contents → strEndsWith e.key n = true →
        (localRunnerFindCompletion n (.s3 contents)).isSome = true) := by
  refine ⟨fun keys => rfl, ?_, ?_, ?_⟩
  · intro contents e he hcond
    simp only [dispatcherFindOutput]
    refine List.find?_isSome.mpr ⟨e, he, ?_⟩
    rcases hcond with h | h <;> simp [h]
  · intro keys k hk hsuf
    simp only [localRunnerFindCompletion]
    exact List.find?_isSome.mpr ⟨k, hk, hsuf⟩
  · intro contents e he hsuf
    simp only [localRunnerFindCompletion]
    rw [Option.isSome_map']
    exact List.find?_isSome.mpr ⟨e, he, hsuf⟩

/-- C6 amended, witness: the concrete flat and S3-shaped listings. -/
theorem listing_shape_handling_witness :
    (localRunnerFindCompletion exitArtifactName (.flat [exitArtifactPath])).isSome = true
    ∧ (dispatcherFindOutput exitArtifactPath exitArtifactName
        (.s3 [⟨exitArtifactPath, 2⟩])).isSome = true :=
  ⟨(listing_shape_handling exitArtifactPath exitArtifactName).2.2.1 [exitArtifactPath]
      exitArtifactPath (by simp) (by decide),
   (listing_shape_handling exitArtifactPath exitArtifactName).2.1 [⟨exitArtifactPath, 2⟩]
      ⟨exitArtifactPath, 2⟩ (by simp) (Or.inl rfl)⟩

/-! ## C4 — precedence of requirements and hints in extraction -/

/-- Folding `gStep` from an arbitrary start either ends at the list's own
last write or keeps the start. -/
theorem foldl_gStep_start (g : ReqEntry → Option α) (l : List ReqEntry) (o : Option α) :
    l.foldl (gStep g) o = oKeep (lastG g l) o := by
  induction l generalizing o with
  | nil => simp [lastG, oKeep]
  | cons e t ih =>
    simp only [lastG, List.foldl_cons] at *
    rw [ih (gStep g o e), ih (gStep g none e)]
    cases h : t.foldl (gStep g) none <;> cases hg : g e <;> simp [gStep, oKeep, hg]

/-- `lastG` over a cons. -/
theorem lastG_cons (g : ReqEntry → Option α) (e : ReqEntry) (t : List ReqEntry) :
    lastG g (e :: t) = oKeep (lastG g t) (g e) := by
  simp only [lastG, List.foldl_cons]
  rw [show gStep g none e = g e by cases hg : g e <;> simp [gStep, oKeep, hg]]
  exact foldl_gStep_start g t (g e)

/-- A projection that advances entry-wise by `g` folds to the last write. -/
theorem proj_foldl (f : ServiceRequirements → ReqEntry → ServiceRequirements)
    (proj : ServiceRequirements → α) (g : ReqEntry → Option α)
    (H : ∀ acc e, proj (f acc e) = (g e).getD (proj acc))
    (l : List ReqEntry) (acc : ServiceRequirements) :
    proj (l.foldl f acc) = (lastG g l).getD (proj acc) := by
  induction l generalizing acc with
  | nil => simp [lastG]
  | cons e t ih =>
    simp only [List.foldl_cons]
    rw [ih (f acc e), lastG_cons]
    cases ht : lastG g t <;> cases hg : g e <;> simp [H acc e, oKeep, hg]

/-- Entry-wise behavior of the hints loop on the image field. -/
theorem processHint_image (acc : ServiceRequirements) (e : ReqEntry) :
    (processHint acc e).image = (gDocker e).getD acc.image := by
  unfold processHint gDocker
  by_cases hk : e.klass = some "DockerRequirement" <;>
    simp [hk] <;> cases e.dockerPull <;> simp

/-- Entry-wise behavior of the requirements loop on the image field. -/
theorem processRequirement_image (acc : ServiceRequirements) (e : ReqEntry) :
    (processRequirement acc e).image = (gDocker e).getD acc.image := by
  unfold processRequirement gDocker
  by_cases hk : e.klass = some "DockerRequirement"
  · simp [hk]; cases e.dockerPull <;> simp
  · by_cases hr : e.klass = some "ResourceRequirement"
    · simp [hk, hr]; cases e.ramMin <;> cases e.coresMin <;> simp
    · by_cases henv : e.klass = some "EnvVarRequirement" <;>
        simp [hk, hr, henv] <;> cases e.envDef <;> simp

/-- Entry-wise behavior of the requirements loop on the memory field. -/
theorem processRequirement_memory (acc : ServiceRequirements) (e : ReqEntry) :
    (processRequirement acc e).memory = (gRam e).getD acc.memory := by
  unfold processRequirement gRam
  by_cases hk : e.klass = some "DockerRequirement"
  · have hnr : ¬(e.klass = some "ResourceRequirement") := by simp [hk]
    simp [hk, hnr]; cases e.dockerPull <;> simp
  · by_cases hr : e.klass = some "ResourceRequirement"
    · simp [hk, hr]; cases e.ramMin <;> cases e.coresMin <;> simp
    · by_cases henv : e.klass = some "EnvVarRequirement" <;>
        simp [hk, hr, henv] <;> cases e.envDef <;> simp

/-- Entry-wise behavior of the requirements loop on the cpu field. -/
theorem processRequirement_cpu (acc : ServiceRequirements) (e : ReqEntry) :
    (processRequirement acc e).cpu = (gCores e).getD acc.cpu := by
  unfold processRequirement gCores
  by_cases hk : e.klass = some "DockerRequirement"
  · have hnr : ¬(e.klass = some "ResourceRequirement") := by simp [hk]
    simp [hk, hnr]; cases e.dockerPull <;> simp
  · by_cases hr : e.klass = some "ResourceRequirement"
    · simp [hk, hr]; cases e.ramMin <;> cases e.coresMin <;> simp
    · by_cases henv : e.klass = some "EnvVarRequirement" <;>
        simp [hk, hr, henv] <;> cases e.envDef <;> simp

/-- The hints loop never touches the memory field. -/
theorem foldl_processHint_memory (l : List ReqEntry) (acc : ServiceRequirements) :
    (l.foldl processHint acc).memory = acc.memory := by
  induction l generalizing acc with
  | nil => rfl
  | cons e t ih =>
    simp only [List.foldl_cons]
    rw [ih]
    unfold processHint
    by_cases hk : e.klass = some "DockerRequirement" <;>
      simp [hk] <;> cases e.dockerPull <;> simp

/-- The hints loop never touches the cpu field. -/
theorem foldl_processHint_cpu (l : List ReqEntry) (acc : ServiceRequirements) :
    (l.foldl processHint acc).cpu = acc.cpu := by
  induction l generalizing acc with
  | nil => rfl
  | cons e t ih =>
    simp only [List.foldl_cons]
    rw [ih]
    unfold processHint
    by_cases hk : e.klass = some "DockerRequirement" <;>
      simp [hk] <;> cases e.dockerPull <;> simp

/-- C4 counterexample: with a Docker image set by the `requirements` list, a
`hints` entry still overrides it — the hint does NOT apply only when the
field was unset. -/
theorem hint_overrides_requirement_image :
    (extract_service_requirements mgrA tsC4req).image = "img-from-requirements"
    ∧ (extract_service_requirements mgrA tsC4).image = "img-from-hints" := by decide

/-- C4 amended: `requirements` are processed before `hints`, and within each
list a later entry overrides an earlier one for the same field; but a hint's
`DockerRequirement.dockerPull` overrides the image unconditionally (even when
`requirements` already set it), and the ram and cores fields are derived from
the `requirements` list only — `ResourceRequirement` hints are ignored. -/
theorem requirements_extraction_precedence (m : OSCARServiceManager) (ts : ToolSpec) :
    (extract_service_requirements m ts).image =
      (lastG gDocker (ts.hints.getD [])).getD
        ((lastG gDocker (ts.requirements.getD [])).getD "opensourcefoundries/minideb:jessie")
    ∧ (extract_service_requirements m ts).memory =
      (lastG gRam (ts.requirements.getD [])).getD "1Gi"
    ∧ (extract_service_requirements m ts).cpu =
      (lastG gCores (ts.requirements.getD [])).getD "1.0" := by
  have hreq : (match ts.requirements with
      | some l => l.foldl processRequirement defaultServiceRequirements
      | none => defaultServiceRequirements) =
      (ts.requirements.getD []).foldl processRequirement defaultServiceRequirements := by
    cases ts.requirements <;> simp
  have hhint : ∀ x : ServiceRequirements, (match ts.hints with
      | some l => l.foldl processHint x
      | none => x) = (ts.hints.getD []).foldl processHint x := by
    intro x; cases ts.hints <;> simp
  simp only [extract_service_requirements]
  rw [hreq, hhint]
  refine ⟨?_, ?_, ?_⟩
  · rw [proj_foldl processHint (fun r => r.image) gDocker processHint_image,
      proj_foldl processRequirement (fun r => r.image) gDocker processRequirement_image]
    rfl
  · rw [foldl_processHint_memory,
      proj_foldl processRequirement (fun r => r.memory) gRam processRequirement_memory]
    rfl
  · rw [foldl_processHint_cpu,
      proj_foldl processRequirement (fun r => r.cpu) gCores processRequirement_cpu]
    rfl

/-! ## C3 — round-robin cluster scheduling -/

/-- Evaluating `get?` over the index range enumerates the list. -/
theorem map_get?_range (l : List α) : (List.range l.length).map l.get? = l.map some := by
  induction l with
  | nil => rfl
  | cons a t ih =>
    simp [List.range_succ_eq_map, List.map_map, Function.comp]
    exact ih

/-- Closed form of `k` successive `get_next_cluster` calls starting from a
cursor in range: the results read the registry at `(c + i) % N` and the
cursor ends at `(c + k) % N`. -/
theorem nextClusters_spec (cs : List ClusterConfig) (k : Nat) :
    ∀ c, c < cs.length →
      (nextClusters ⟨cs, c⟩ k).1 =
        (List.range k).map (fun i => cs.get? ((c + i) % cs.length))
      ∧ (nextClusters ⟨cs, c⟩ k).2 = ⟨cs, (c + k) % cs.length⟩ := by
  induction k with
  | zero =>
    intro c hc
    exact ⟨rfl, by simp [nextClusters, Nat.mod_eq_of_lt hc]⟩
  | succ k ih =>
    intro c hc
    have hN : 0 < cs.length := Nat.lt_of_le_of_lt (Nat.zero_le c) hc
    have hstep : get_next_cluster ⟨cs, c⟩ =
        (cs.get? c, ⟨cs, (c + 1) % cs.length⟩) := by
      simp only [get_next_cluster]
      rw [List.get?_eq_get hc]
    have hc1 : (c + 1) % cs.length < cs.length := Nat.mod_lt _ hN
    obtain ⟨ihf, ihs⟩ := ih ((c + 1) % cs.length) hc1
    have hsplit1 : (nextClusters ⟨cs, c⟩ (k + 1)).1 =
        cs.get? c :: (nextClusters ⟨cs, (c + 1) % cs.length⟩ k).1 := by
      simp only [nextClusters, hstep]
    have hsplit2 : (nextClusters ⟨cs, c⟩ (k + 1)).2 =
        (nextClusters ⟨cs, (c + 1) % cs.length⟩ k).2 := by
      simp only [nextClusters, hstep]
    constructor
    · rw [hsplit1, ihf, List.range_succ_eq_map, List.map_cons, List.map_map]
      congr 1
      · rw [Nat.add_zero, Nat.mod_eq_of_lt hc]
      · apply List.map_congr_left
        intro i hi
        simp only [Function.comp, Nat.succ_eq_add_one]
        rw [Nat.mod_add_mod]
        have harith : c + 1 + i = c + (i + 1) := by omega
        rw [harith]
    · rw [hsplit2, ihs]
      rw [show ((c + 1) % cs.length + k) % cs.length = (c + (k + 1)) % cs.length by
        rw [Nat.mod_add_mod]
        have harith : c + 1 + k = c + (k + 1) := by omega
        rw [harith]]

/-- C3: on a registry of `N ≥ 1` clusters with the cursor anywhere in
`[0, N)`, `N` successive `next()` calls return each registered cluster
exactly once (the returned list is a permutation of the registry); each call
advances the cursor to `(index + 1) % N`; and `next()` on an empty registry
returns the `none` sentinel without changing state. -/
theorem round_robin_visits_each_once (m : ClusterManager)
    (hne : m.clusters ≠ []) (hc : m.current_cluster_index < m.clusters.length) :
    List.Perm (nextClusters m m.clusters.length).1 (m.clusters.map some)
    ∧ (get_next_cluster m).2.current_cluster_index
        = (m.current_cluster_index + 1) % m.clusters.length
    ∧ (∀ m' : ClusterManager, m'.clusters = [] → get_next_cluster m' = (none, m')) := by
  obtain ⟨cs, c⟩ := m
  refine ⟨?_, ?_, ?_⟩
  · obtain ⟨hf, _⟩ := nextClusters_spec cs cs.length c hc
    rw [show (nextClusters ⟨cs, c⟩ (⟨cs, c⟩ : ClusterManager).clusters.length).1
        = (List.range cs.length).map (fun i => cs.get? ((c + i) % cs.length)) from hf]
    have hrot : (List.range cs.length).map (fun i => cs.get? ((c + i) % cs.length))
        = (cs.rotate c).map some := by
      have hlen : (cs.rotate c).length = cs.length := List.length_rotate cs c
      have hmr := map_get?_range (cs.rotate c)
      rw [hlen] at hmr
      rw [← hmr]
      apply List.map_congr_left
      intro i hi
      have hi2 : i < cs.length := List.mem_range.mp hi
      rw [Nat.add_comm c i]
      exact (List.get?_rotate hi2).symm
    rw [hrot]
    exact (List.rotate_perm cs c).map some
  · simp only [get_next_cluster]
    rw [List.get?_eq_get hc]
  · intro m2 h
    obtain ⟨cs2, c2⟩ := m2
    simp only at h
    subst h
    simp [get_next_cluster]

/-- C3 witness: the three-cluster registry with cursor 1. -/
theorem round_robin_witness :
    cmABC.clusters ≠ [] ∧ cmABC.current_cluster_index < cmABC.clusters.length
    ∧ (List.Perm (nextClusters cmABC cmABC.clusters.length).1 (cmABC.clusters.map some)
       ∧ (get_next_cluster cmABC).2.current_cluster_index
           = (cmABC.current_cluster_index + 1) % cmABC.clusters.length
       ∧ (∀ m' : ClusterManager, m'.clusters = [] → get_next_cluster m' = (none, m'))) :=
  ⟨by decide, by decide, round_robin_visits_each_once cmABC (by decide) (by decide)⟩

/-! ## C5 — exit-code artifact parsing -/

/-- An ASCII digit is not Python whitespace. -/
theorem digit_not_ws (c : Char) (h : isAsciiDigit c = true) : isPyWhitespace c = false := by
  unfold isAsciiDigit at h
  unfold isPyWhitespace
  simp only [Bool.and_eq_true, decide_eq_true_eq] at h
  simp only [Bool.or_eq_false_iff, decide_eq_false_iff_not]
  omega

/-- The code of a decimal digit character. -/
theorem hexDigitChar_toNat (d : Nat) (h : d < 10) : (hexDigitChar d).toNat = 48 + d := by
  interval_cases d <;> decide

/-- Decimal digit characters are ASCII digits. -/
theorem hexDigitChar_digit (d : Nat) (h : d < 10) : isAsciiDigit (hexDigitChar d) = true := by
  interval_cases d <;> decide

/-- Decimal renderings are never empty. -/
theorem natToChars_ne_nil (n : Nat) : natToChars n ≠ [] := by
  rw [natToChars]
  by_cases h : n < 10 <;> simp [h]

/-- Decimal renderings consist of ASCII digits. -/
theorem natToChars_all_digits (n : Nat) : (natToChars n).all isAsciiDigit = true := by
  induction n using Nat.strong_induction_on with
  | _ n ih =>
    rw [natToChars]
    by_cases h : n < 10
    · simp [h, hexDigitChar_digit n h]
    · have hlt : n / 10 < n := Nat.div_lt_self (by omega) (by omega)
      rw [if_neg h, List.all_append]
      rw [ih (n / 10) hlt]
      simp [hexDigitChar_digit (n % 10) (Nat.mod_lt _ (by omega))]

/-- Folding the digit-accumulation step over a decimal rendering recovers the
number. -/
theorem foldl_digits_val (n : Nat) :
    ∀ acc, (natToChars n).foldl (fun a c => a * 10 + (c.toNat - 48)) acc
      = acc * 10 ^ (natToChars n).length + n := by
  induction n using Nat.strong_induction_on with
  | _ n ih =>
    intro acc
    rw [natToChars]
    by_cases h : n < 10
    · rw [if_pos h]
      simp [List.foldl, hexDigitChar_toNat n h]
    · have hlt : n / 10 < n := Nat.div_lt_self (by omega) (by omega)
      rw [if_neg h, List.foldl_append, List.length_append]
      rw [ih (n / 10) hlt acc]
      simp only [List.foldl, List.length_cons, List.length_nil,
        hexDigitChar_toNat (n % 10) (Nat.mod_lt _ (by omega))]
      rw [Nat.pow_succ, ← Nat.mul_assoc]
      generalize acc * 10 ^ (natToChars (n / 10)).length = m
      omega

/-- `int(...)` of a decimal rendering recovers the number. -/
theorem digitsVal_natToString (n : Nat) : digitsVal (natToString n) = n := by
  unfold digitsVal natToString
  have h := foldl_digits_val n 0
  simpa using h

/-- `dropWhile` whitespace is the identity on all-digit content. -/
theorem dropWhile_ws_of_digits (l : List Char) (hl : l.all isAsciiDigit = true) :
    l.dropWhile isPyWhitespace = l := by
  cases l with
  | nil => rfl
  | cons a t =>
    have ha : isAsciiDigit a = true := by
      simp only [List.all_cons, Bool.and_eq_true] at hl
      exact hl.1
    rw [List.dropWhile_cons, if_neg (by simp [digit_not_ws a ha])]

/-- Stripping an all-digit payload followed by the trailing newline of
`echo` recovers the payload. -/
theorem pyStripChars_digits_newline (l : List Char) (hne : l ≠ [])
    (hd : l.all isAsciiDigit = true) : pyStripChars (l ++ ['\n']) = l := by
  unfold pyStripChars
  obtain ⟨c, t, rfl⟩ := List.exists_cons_of_ne_nil hne
  have hall := hd
  simp only [List.all_cons, Bool.and_eq_true] at hall
  have hc : isAsciiDigit c = true := hall.1
  have hcws : isPyWhitespace c = false := digit_not_ws c hc
  rw [List.cons_append, List.dropWhile_cons, if_neg (by simp [hcws])]
  have hrev : (c :: (t ++ ['\n'])).reverse = '\n' :: (t.reverse ++ [c]) := by
    simp
  rw [hrev, List.dropWhile_cons, if_pos (by decide)]
  have hdig2 : (t.reverse ++ [c]).all isAsciiDigit = true := by
    rw [List.all_append, List.all_reverse]
    simp [hall.2, hc]
  rw [dropWhile_ws_of_digits _ hdig2]
  simp

/-- The round trip through the artifact format: `echo "$exit_code"` writes the
decimal digits plus a newline, and `readExitCode` parses them back. -/
theorem readExitCode_natToString (n : Nat) : readExitCode (natToString n ++ "\n") = n := by
  have hne := natToChars_ne_nil n
  have hdig := natToChars_all_digits n
  have hdata : (natToString n ++ "\n").data = natToChars n ++ ['\n'] :=
    String.data_append (natToString n) "\n"
  simp only [readExitCode, pyStrip]
  rw [hdata, pyStripChars_digits_newline _ hne hdig]
  have hisd : pyIsdigit (String.mk (natToChars n)) = true := by
    simp [pyIsdigit, hdig, hne]
  rw [if_pos hisd]
  exact digitsVal_natToString n

/-- C5: after stripping surrounding whitespace, all-digit content parses to
that integer (in particular every `<digits>\n` artifact written by the remote
launcher, including zero-padded forms), and any other content — empty,
alphabetic, or digits followed by junk — is coerced to exit code 0. -/
theorem exit_code_parsing_tolerant :
    (∀ n : Nat, readExitCode (natToString n ++ "\n") = n)
    ∧ readExitCode "" = 0
    ∧ readExitCode "abc" = 0
    ∧ readExitCode "1\nfoo" = 0
    ∧ readExitCode "007\n" = 7
    ∧ readExitCode "  42 \n" = 42 := by
  refine ⟨readExitCode_natToString, ?_, ?_, ?_, ?_, ?_⟩ <;> decide

/-! ## C7 — environment-variable quoting round trip -/

/-- The escape-then-evaluate round trip on character lists: for content free
of backslashes and backquotes, evaluating the escaped text under bash
double-quote semantics returns the original bytes. -/
theorem dquote_roundtrip_chars (cs : List Char) :
    '\\' ∉ cs → '`' ∉ cs →
      dquoteEval (escDollarChars (escQuoteChars cs)) = some cs := by
  induction cs with
  | nil => intro _ _; rfl
  | cons c t ih =>
    intro hb hq
    have hb2 : '\\' ∉ t := fun hmem => hb (List.mem_cons_of_mem _ hmem)
    have hq2 : '`' ∉ t := fun hmem => hq (List.mem_cons_of_mem _ hmem)
    have hcb : c ≠ '\\' := by
      rintro rfl; exact hb (List.mem_cons_self _ _)
    have hcq : c ≠ '`' := by
      rintro rfl; exact hq (List.mem_cons_self _ _)
    by_cases h1 : c = '"'
    · subst h1
      rw [show escQuoteChars ('"' :: t) = '\\' :: '"' :: escQuoteChars t by
        simp [escQuoteChars]]
      rw [show escDollarChars ('\\' :: '"' :: escQuoteChars t)
          = '\\' :: '"' :: escDollarChars (escQuoteChars t) by simp [escDollarChars]]
      rw [show dquoteEval ('\\' :: '"' :: escDollarChars (escQuoteChars t))
          = (dquoteEval (escDollarChars (escQuoteChars t))).map ('"' :: ·) by
        rw [dquoteEval.eq_def]; simp]
      rw [ih hb2 hq2]
      rfl
    · by_cases h2 : c = '$'
      · subst h2
        rw [show escQuoteChars ('$' :: t) = '$' :: escQuoteChars t by
          simp [escQuoteChars]]
        rw [show escDollarChars ('$' :: escQuoteChars t)
            = '\\' :: '$' :: escDollarChars (escQuoteChars t) by simp [escDollarChars]]
        rw [show dquoteEval ('\\' :: '$' :: escDollarChars (escQuoteChars t))
            = (dquoteEval (escDollarChars (escQuoteChars t))).map ('$' :: ·) by
          rw [dquoteEval.eq_def]; simp]
        rw [ih hb2 hq2]
        rfl
      · rw [show escQuoteChars (c :: t) = c :: escQuoteChars t by simp [escQuoteChars, h1]]
        rw [show escDollarChars (c :: escQuoteChars t)
            = c :: escDollarChars (escQuoteChars t) by simp [escDollarChars, h2]]
        rw [show dquoteEval (c :: escDollarChars (escQuoteChars t))
            = (dquoteEval (escDollarChars (escQuoteChars t))).map (c :: ·) by
          rw [dquoteEval.eq_def]; simp [hcb, h1, h2, hcq]]
        rw [ih hb2 hq2]
        rfl

/-- C7: for every shell-safe value containing `"` and `$` characters, the
export line emitted by `create_command_script` double-quotes the value with
`"` escaped to `\"` and `$` escaped to `\$`, and evaluating that quoted body
under bash double-quote semantics yields the original value byte for byte. -/
theorem env_var_quoting_roundtrip (s : String) (hs : shellSafe s)
    (hq : '"' ∈ s.data) (hd : '$' ∈ s.data) :
    dquoteEval (escapeEnvValue s).data = some s.data
    ∧ ∀ key, exportLine key s = "export " ++ key ++ "=\"" ++ escapeEnvValue s ++ "\"\n" :=
  ⟨dquote_roundtrip_chars s.data hs.1 hs.2, fun _ => rfl⟩

/-- C7 witness: a concrete value with quotes and a dollar expansion. -/
theorem env_var_quoting_witness :
    shellSafe envValC7 ∧ '"' ∈ envValC7.data ∧ '$' ∈ envValC7.data
    ∧ dquoteEval (escapeEnvValue envValC7).data = some envValC7.data :=
  ⟨by decide, by decide, by decide,
   (env_var_quoting_roundtrip envValC7 (by decide) (by decide) (by decide)).1⟩

end CwlOscar
